import Mathlib

/-!
Shallow embedding of the loom point-cloud scene generator.

Sources embedded here:
* `src/generate_sample_data.py` — class `HighPerformanceSampleGenerator`:
  primitive samplers, scene composers for the three presets, bounds
  computation and the JSON exporter.
* `src/backend/app.py` — class `PointCloudProcessor`: the backend samplers,
  the traffic-scene builder and the columnar table builder.

Modelling conventions:
* Floating point numbers are modelled as rationals (`ℚ`); the code's numeric
  literals translate exactly.
* `numpy` random draws are modelled by an abstract stream `RNG`: `u` holds the
  unit draws behind `np.random.uniform` and `np.random.random` (a valid stream
  has all values in `[0,1]`), `g` holds the standard normal draws behind
  `np.random.normal` (unbounded), and `c` holds the index draws behind
  `np.random.choice`.  Distinct call sites consume distinct portions of the
  stream via the `blk`/`seg` offsets; every theorem quantifies over the stream,
  so the indexing scheme carries no information.
* `math.cos`/`sin` and `np.pi` enter only through the rigid-transform
  formulas; no property below depends on trigonometric identities, so they are
  carried as an abstract environment `Env`.
* Code paths that raise Python exceptions are modelled with `Option`/`Except`:
  the dispatchers call fallback methods (`_generate_random_scene`,
  `_create_urban_street`, `_create_parking_lot`, `_create_random_scene`) that
  are defined nowhere in the repository, so those branches raise
  `AttributeError`; `np.array([])[:, 0]` in `_to_pyarrow_table` raises
  `IndexError` on an empty point list.
-/

/-- Abstract stream of random draws: `u` for unit-interval draws,
`g` for standard normal draws, `c` for `np.random.choice` index draws. -/
structure RNG where
  u : ℕ → ℚ
  g : ℕ → ℚ
  c : ℕ → ℕ

/-- A stream is valid when all unit draws lie in `[0,1]`
(the range of `np.random.uniform(0,1)` / `np.random.random`). -/
def ValidRNG (r : RNG) : Prop := ∀ i, 0 ≤ r.u i ∧ r.u i ≤ 1

/-- Per-object sub-stream: object `k` of a composer reads draws from its own
block of the global stream. -/
def blk (r : RNG) (k : ℕ) : RNG :=
  ⟨fun i => r.u (65536 * k + i), fun i => r.g (65536 * k + i), fun i => r.c (65536 * k + i)⟩

/-- Per-segment sub-stream inside one sampler (pole / housing / arm ...). -/
def seg (r : RNG) (k : ℕ) : RNG :=
  ⟨fun i => r.u (4096 * k + i), fun i => r.g (4096 * k + i), fun i => r.c (4096 * k + i)⟩

/-- `np.random.uniform(a, b)` applied to a unit draw `t`. -/
def unif (a b t : ℚ) : ℚ := a + (b - a) * t

/-- `np.random.normal(mu, sd)` applied to a standard normal draw `t`. -/
def nrm (mu sd t : ℚ) : ℚ := mu + sd * t

/-- Abstract trigonometric environment standing for `np.pi`, `np.cos`,
`np.sin`; no claim below depends on their actual values. -/
structure Env where
  pi : ℚ
  cos : ℚ → ℚ
  sin : ℚ → ℚ

/-- One generated point `[x, y, z, intensity]`. -/
structure Pt where
  x : ℚ
  y : ℚ
  z : ℚ
  intensity : ℚ
deriving DecidableEq

/-- Oriented bounding box descriptor `{center, size, rotation}`. -/
structure BBox where
  center : ℚ × ℚ × ℚ
  size : ℚ × ℚ × ℚ
  rot : ℚ

/-- Python `int(q)`: truncation toward zero. -/
def pyInt (q : ℚ) : ℤ := if 0 ≤ q then ⌊q⌋ else -⌊-q⌋

/-! ### Primitive samplers of `HighPerformanceSampleGenerator` -/

/-- One support-pole point of `_create_traffic_light_detailed` (the 80-point
loop): normal jitter around `(x, y)`, height uniform in `[0, z]`. -/
def tlPolePt (c : ℚ × ℚ × ℚ) (r : RNG) (i : ℕ) : Pt :=
  { x := c.1 + nrm 0 (3/100) (r.g (4*i))
    y := c.2.1 + nrm 0 (3/100) (r.g (4*i+1))
    z := unif 0 c.2.2 (r.u (4*i))
    intensity := 3/5 + unif 0 (1/5) (r.u (4*i+1)) }

/-- One housing point of `_create_traffic_light_detailed` (the 60-point loop),
with the yaw rotation applied to the local offsets. -/
def tlHousingPt (env : Env) (c : ℚ × ℚ × ℚ) (rot : ℚ) (r : RNG) (i : ℕ) : Pt :=
  let lx := unif (-(3/20)) (3/20) (r.u (4*i))
  let ly := unif (-(2/25)) (2/25) (r.u (4*i+1))
  let lz := c.2.2 + unif (-(1/5)) (1/5) (r.u (4*i+2))
  { x := c.1 + (lx * env.cos rot - ly * env.sin rot)
    y := c.2.1 + (lx * env.sin rot + ly * env.cos rot)
    z := lz
    intensity := 4/5 + unif 0 (1/5) (r.u (4*i+3)) }

/-- One mounting-arm point of `_create_traffic_light_detailed`
(the 40-point loop). -/
def tlArmPt (env : Env) (c : ℚ × ℚ × ℚ) (rot : ℚ) (r : RNG) (i : ℕ) : Pt :=
  let lx := unif (-(4/5)) 0 (r.u (4*i))
  let ly := nrm 0 (3/100) (r.g (4*i))
  let lz := c.2.2 + unif (-(1/20)) (1/20) (r.u (4*i+1))
  { x := c.1 + (lx * env.cos rot - ly * env.sin rot)
    y := c.2.1 + (lx * env.sin rot + ly * env.cos rot)
    z := lz
    intensity := 7/10 + unif 0 (1/5) (r.u (4*i+2)) }

/-- `HighPerformanceSampleGenerator._create_traffic_light_detailed`:
80 pole + 60 housing + 40 arm points, and a bounding box taken from the
known geometry (`center`, fixed size `[0.3, 0.2, 0.4]`, yaw). -/
def createTrafficLightDetailed (env : Env) (c : ℚ × ℚ × ℚ) (rot : ℚ) (r : RNG) :
    List Pt × BBox :=
  ((List.range 80).map (tlPolePt c (seg r 0)) ++
   (List.range 60).map (tlHousingPt env c rot (seg r 1)) ++
   (List.range 40).map (tlArmPt env c rot (seg r 2)),
   { center := c, size := (3/10, 1/5, 2/5), rot := rot })

/-- Vehicle dimensions table of `_create_vehicle_detailed`
(any unknown type falls to the `compact` branch). -/
def vehicleDims (vt : String) : ℚ × ℚ × ℚ :=
  if vt = "sedan" then (9/2, 9/5, 7/5)
  else if vt = "suv" then (24/5, 2, 9/5)
  else if vt = "truck" then (13/2, 12/5, 5/2)
  else (19/5, 8/5, 6/5)

/-- Per-class point density table of `_create_vehicle_detailed`. -/
def vehicleDensity (vt : String) : ℕ :=
  if vt = "sedan" then 250
  else if vt = "suv" then 300
  else if vt = "truck" then 400
  else 200

/-- One point of `_create_vehicle_detailed`: uniform in the local body box,
yaw-rotated, with the windshield-versus-body intensity rule. -/
def vehiclePt (env : Env) (c : ℚ × ℚ × ℚ) (rot : ℚ) (vt : String) (r : RNG) (i : ℕ) : Pt :=
  let d := vehicleDims vt
  let lx := unif (-(d.1/2)) (d.1/2) (r.u (4*i))
  let ly := unif (-(d.2.1/2)) (d.2.1/2) (r.u (4*i+1))
  let lz := unif 0 d.2.2 (r.u (4*i+2))
  { x := c.1 + (lx * env.cos rot - ly * env.sin rot)
    y := c.2.1 + (lx * env.sin rot + ly * env.cos rot)
    z := c.2.2 + lz
    intensity :=
      if |lx| > d.1 * (3/10) ∧ lz > d.2.2 * (1/2)
      then 9/10 + unif 0 (1/10) (r.u (4*i+3))
      else 2/5 + unif 0 (3/10) (r.u (4*i+3)) }

/-- `HighPerformanceSampleGenerator._create_vehicle_detailed`: density-many
body points and a bounding box from the declared dimensions
(`center = [x, y, z + height/2]`, `size = dims`, yaw). -/
def createVehicleDetailed (env : Env) (c : ℚ × ℚ × ℚ) (rot : ℚ) (vt : String) (r : RNG) :
    List Pt × BBox :=
  ((List.range (vehicleDensity vt)).map (vehiclePt env c rot vt r),
   { center := (c.1, c.2.1, c.2.2 + (vehicleDims vt).2.2 / 2),
     size := vehicleDims vt, rot := rot })

/-- One point of `_create_building`. -/
def buildingPt (c sz : ℚ × ℚ × ℚ) (r : RNG) (i : ℕ) : Pt :=
  { x := c.1 + unif (-(sz.1/2)) (sz.1/2) (r.u (4*i))
    y := c.2.1 + unif (-(sz.2.1/2)) (sz.2.1/2) (r.u (4*i+1))
    z := unif 0 sz.2.2 (r.u (4*i+2))
    intensity := 3/10 + unif 0 (2/5) (r.u (4*i+3)) }

/-- `HighPerformanceSampleGenerator._create_building`: point count is
`int(length * width * height / 2)` (density from volume). -/
def createBuilding (c sz : ℚ × ℚ × ℚ) (r : RNG) : List Pt × BBox :=
  ((List.range (pyInt (sz.1 * sz.2.1 * sz.2.2 / 2)).toNat).map (buildingPt c sz r),
   { center := c, size := sz, rot := 0 })

/-- One pole point of `_create_lamp_post` (30-point loop, height in `[0,4]`). -/
def lampPolePt (c : ℚ × ℚ × ℚ) (r : RNG) (i : ℕ) : Pt :=
  { x := c.1 + nrm 0 (1/50) (r.g (4*i))
    y := c.2.1 + nrm 0 (1/50) (r.g (4*i+1))
    z := unif 0 4 (r.u (4*i))
    intensity := 1/2 + unif 0 (3/10) (r.u (4*i+1)) }

/-- One lamp-housing point of `_create_lamp_post` (15-point loop at the top). -/
def lampHousingPt (c : ℚ × ℚ × ℚ) (r : RNG) (i : ℕ) : Pt :=
  { x := c.1 + unif (-(1/5)) (1/5) (r.u (4*i))
    y := c.2.1 + unif (-(1/5)) (1/5) (r.u (4*i+1))
    z := 4 + unif (-(1/10)) (1/10) (r.u (4*i+2))
    intensity := 4/5 + unif 0 (1/5) (r.u (4*i+3)) }

/-- `HighPerformanceSampleGenerator._create_lamp_post`. -/
def createLampPost (c : ℚ × ℚ × ℚ) (r : RNG) : List Pt × BBox :=
  ((List.range 30).map (lampPolePt c (seg r 0)) ++
   (List.range 15).map (lampHousingPt c (seg r 1)),
   { center := (c.1, c.2.1, 2), size := (2/5, 2/5, 4), rot := 0 })

/-- One point of `_create_bench`. -/
def benchPt (c : ℚ × ℚ × ℚ) (r : RNG) (i : ℕ) : Pt :=
  { x := c.1 + unif (-(4/5)) (4/5) (r.u (4*i))
    y := c.2.1 + unif (-(1/5)) (1/5) (r.u (4*i+1))
    z := c.2.2 + unif 0 (2/5) (r.u (4*i+2))
    intensity := 2/5 + unif 0 (3/10) (r.u (4*i+3)) }

/-- `HighPerformanceSampleGenerator._create_bench`. -/
def createBench (c : ℚ × ℚ × ℚ) (r : RNG) : List Pt × BBox :=
  ((List.range 40).map (benchPt c r),
   { center := (c.1, c.2.1, c.2.2 + 1/5), size := (8/5, 2/5, 2/5), rot := 0 })

/-- One tall-pole point of `_create_light_pole` (50-point loop). -/
def lpPolePt (c : ℚ × ℚ × ℚ) (r : RNG) (i : ℕ) : Pt :=
  { x := c.1 + nrm 0 (3/100) (r.g (4*i))
    y := c.2.1 + nrm 0 (3/100) (r.g (4*i+1))
    z := unif 0 c.2.2 (r.u (4*i))
    intensity := 1/2 + unif 0 (3/10) (r.u (4*i+1)) }

/-- One light-fixture point of `_create_light_pole`: fixture `k` sits at angle
`k * 2π/3` on a circle of radius `0.5` around the pole. -/
def lpFixturePt (env : Env) (c : ℚ × ℚ × ℚ) (k : ℕ) (r : RNG) (i : ℕ) : Pt :=
  let ang := (k : ℚ) * 2 * env.pi / 3
  let fx := c.1 + (1/2) * env.cos ang
  let fy := c.2.1 + (1/2) * env.sin ang
  { x := fx + unif (-(1/10)) (1/10) (r.u (4*i))
    y := fy + unif (-(1/10)) (1/10) (r.u (4*i+1))
    z := c.2.2 + unif (-(1/5)) (1/5) (r.u (4*i+2))
    intensity := 9/10 + unif 0 (1/10) (r.u (4*i+3)) }

/-- `HighPerformanceSampleGenerator._create_light_pole`: 50 pole points plus
three fixtures of 10 points each. -/
def createLightPole (env : Env) (c : ℚ × ℚ × ℚ) (r : RNG) : List Pt × BBox :=
  ((List.range 50).map (lpPolePt c (seg r 0)) ++
   ((List.range 10).map (lpFixturePt env c 0 (seg r 1)) ++
    (List.range 10).map (lpFixturePt env c 1 (seg r 2)) ++
    (List.range 10).map (lpFixturePt env c 2 (seg r 3))),
   { center := (c.1, c.2.1, c.2.2 / 2), size := (1, 1, c.2.2), rot := 0 })

/-! ### Surface fillers -/

/-- One point of `_create_road_with_markings`: center-line points get the
bright intensity, plain asphalt the dark one. -/
def roadMarkPt (r : RNG) (i : ℕ) : Pt :=
  let px := unif (-20) 20 (r.u (4*i))
  let py := unif (-20) 20 (r.u (4*i+1))
  { x := px
    y := py
    z := unif (-(1/20)) (1/20) (r.u (4*i+2))
    intensity :=
      if |px| < 1/10 ∨ |py| < 1/10
      then 4/5 + unif 0 (1/5) (r.u (4*i+3))
      else 3/20 + unif 0 (3/20) (r.u (4*i+3)) }

/-- `HighPerformanceSampleGenerator._create_road_with_markings`: the loop
`for i in range(num_points)` runs `max num_points 0` times (Python `range`
of a negative argument is empty). -/
def createRoadWithMarkings (m : ℤ) (r : RNG) : List Pt :=
  (List.range m.toNat).map (roadMarkPt r)

/-- One point of `_create_urban_road_surface`: raised bright sidewalks for
`|x| > 12`, road level otherwise. -/
def urbanRoadPt (r : RNG) (i : ℕ) : Pt :=
  let px := unif (-25) 25 (r.u (4*i))
  let py := unif (-25) 25 (r.u (4*i+1))
  if |px| > 12 then
    { x := px, y := py
      z := unif (3/20) (1/4) (r.u (4*i+2))
      intensity := 2/5 + unif 0 (1/5) (r.u (4*i+3)) }
  else
    { x := px, y := py
      z := unif (-(1/20)) (1/20) (r.u (4*i+2))
      intensity := 3/20 + unif 0 (3/20) (r.u (4*i+3)) }

/-- `HighPerformanceSampleGenerator._create_urban_road_surface`. -/
def createUrbanRoadSurface (m : ℤ) (r : RNG) : List Pt :=
  (List.range m.toNat).map (urbanRoadPt r)

/-- One point of `_create_parking_surface`: white space-marking lines at the
six `x` offsets, plain concrete elsewhere. -/
def parkingSurfacePt (r : RNG) (i : ℕ) : Pt :=
  let px := unif (-25) 25 (r.u (4*i))
  let py := unif (-25) 25 (r.u (4*i+1))
  { x := px
    y := py
    z := unif (-(1/50)) (1/50) (r.u (4*i+2))
    intensity :=
      if |px + 15/2| < 1/20 ∨ |px + 9/2| < 1/20 ∨ |px + 3/2| < 1/20 ∨
         |px - 3/2| < 1/20 ∨ |px - 9/2| < 1/20 ∨ |px - 15/2| < 1/20
      then 9/10 + unif 0 (1/10) (r.u (4*i+3))
      else 1/5 + unif 0 (1/5) (r.u (4*i+3)) }

/-- `HighPerformanceSampleGenerator._create_parking_surface`. -/
def createParkingSurface (m : ℤ) (r : RNG) : List Pt :=
  (List.range m.toNat).map (parkingSurfacePt r)

/-! ### Scene bounds -/

/-- The six scalar extents of a scene. -/
structure Bounds where
  xmin : ℚ
  xmax : ℚ
  ymin : ℚ
  ymax : ℚ
  zmin : ℚ
  zmax : ℚ

/-- `HighPerformanceSampleGenerator._calculate_bounds`: coordinate-wise
min/max over all accumulated points; `np.min`/`np.max` raise on an empty
array, modelled by `none`. -/
def calculateBounds : List Pt → Option Bounds
  | [] => none
  | p :: ps =>
    some { xmin := (ps.map Pt.x).foldl min p.x
           xmax := (ps.map Pt.x).foldl max p.x
           ymin := (ps.map Pt.y).foldl min p.y
           ymax := (ps.map Pt.y).foldl max p.y
           zmin := (ps.map Pt.z).foldl min p.z
           zmax := (ps.map Pt.z).foldl max p.z }

/-! ### Scene data model and composition -/

/-- One placed scene object record, covering all the dict shapes the
composers build: the optional `subtype` field is `vehicle_type`,
`furniture_type` or `infrastructure_type` when the source dict has one,
`rotation` and `osize` are present exactly when the source dict has a
`rotation` / `size` key. -/
structure SceneObj where
  otype : String
  id : String
  subtype : Option (String × String)
  position : ℚ × ℚ × ℚ
  rotation : Option ℚ
  osize : Option (ℚ × ℚ × ℚ)
  bbox : BBox
  numPoints : ℕ

/-- The composed scene: flattened points/labels, the object list and the
metadata block `{total_points, num_objects, scene_bounds}`. -/
structure SceneData where
  points : List Pt
  labels : List String
  sceneObjects : List SceneObj
  sceneType : String
  totalPoints : ℕ
  numObjects : ℕ
  sceneBounds : Option Bounds

/-- Shared composition step of the three `_generate_*` preset builders:
append each placed part's points, one label per point equal to the object id,
then fill with `remaining = num_points - len(all_points)` surface points
(`surfLabel`-labelled) and compute the metadata. -/
def composeScene (stype surfLabel : String) (parts : List (List Pt × SceneObj))
    (surface : ℤ → List Pt) (n : ℕ) : SceneData :=
  let objPts := (parts.map Prod.fst).join
  let road := surface ((n : ℤ) - objPts.length)
  let pts := objPts ++ road
  { points := pts
    labels := (parts.map (fun pr => List.replicate pr.1.length pr.2.id)).join ++
              List.replicate road.length surfLabel
    sceneObjects := parts.map Prod.snd
    sceneType := stype
    totalPoints := pts.length
    numObjects := (parts.map Prod.snd).length
    sceneBounds := calculateBounds pts }

/-- The fixed traffic-light and vehicle layout of
`_generate_traffic_intersection`, with each hardcoded pose, type and id. -/
def trafficParts (env : Env) (r : RNG) : List (List Pt × SceneObj) :=
  let t1 := createTrafficLightDetailed env (8, -3, 4) 0 (blk r 0)
  let t2 := createTrafficLightDetailed env (-8, 3, 4) env.pi (blk r 1)
  let t3 := createTrafficLightDetailed env (3, 8, 4) (-(env.pi/2)) (blk r 2)
  let t4 := createTrafficLightDetailed env (-3, -8, 4) (env.pi/2) (blk r 3)
  let v1 := createVehicleDetailed env (5, -8, 4/5) 0 "sedan" (blk r 4)
  let v2 := createVehicleDetailed env (2, -8, 4/5) 0 "suv" (blk r 5)
  let v3 := createVehicleDetailed env (-5, 8, 4/5) env.pi "truck" (blk r 6)
  let v4 := createVehicleDetailed env (-2, 8, 4/5) env.pi "sedan" (blk r 7)
  let v5 := createVehicleDetailed env (8, 5, 4/5) (-(env.pi/2)) "sedan" (blk r 8)
  let v6 := createVehicleDetailed env (8, -5, 4/5) (env.pi/2) "suv" (blk r 9)
  [ (t1.1, { otype := "traffic_light", id := "traffic_light_north", subtype := none,
             position := (8, -3, 4), rotation := some 0, osize := none,
             bbox := t1.2, numPoints := t1.1.length }),
    (t2.1, { otype := "traffic_light", id := "traffic_light_south", subtype := none,
             position := (-8, 3, 4), rotation := some env.pi, osize := none,
             bbox := t2.2, numPoints := t2.1.length }),
    (t3.1, { otype := "traffic_light", id := "traffic_light_east", subtype := none,
             position := (3, 8, 4), rotation := some (-(env.pi/2)), osize := none,
             bbox := t3.2, numPoints := t3.1.length }),
    (t4.1, { otype := "traffic_light", id := "traffic_light_west", subtype := none,
             position := (-3, -8, 4), rotation := some (env.pi/2), osize := none,
             bbox := t4.2, numPoints := t4.1.length }),
    (v1.1, { otype := "vehicle", id := "car_north_1", subtype := some ("vehicle_type", "sedan"),
             position := (5, -8, 4/5), rotation := some 0, osize := none,
             bbox := v1.2, numPoints := v1.1.length }),
    (v2.1, { otype := "vehicle", id := "car_north_2", subtype := some ("vehicle_type", "suv"),
             position := (2, -8, 4/5), rotation := some 0, osize := none,
             bbox := v2.2, numPoints := v2.1.length }),
    (v3.1, { otype := "vehicle", id := "car_south_1", subtype := some ("vehicle_type", "truck"),
             position := (-5, 8, 4/5), rotation := some env.pi, osize := none,
             bbox := v3.2, numPoints := v3.1.length }),
    (v4.1, { otype := "vehicle", id := "car_south_2", subtype := some ("vehicle_type", "sedan"),
             position := (-2, 8, 4/5), rotation := some env.pi, osize := none,
             bbox := v4.2, numPoints := v4.1.length }),
    (v5.1, { otype := "vehicle", id := "car_east_1", subtype := some ("vehicle_type", "sedan"),
             position := (8, 5, 4/5), rotation := some (-(env.pi/2)), osize := none,
             bbox := v5.2, numPoints := v5.1.length }),
    (v6.1, { otype := "vehicle", id := "car_west_1", subtype := some ("vehicle_type", "suv"),
             position := (8, -5, 4/5), rotation := some (env.pi/2), osize := none,
             bbox := v6.2, numPoints := v6.1.length }) ]

/-- `HighPerformanceSampleGenerator._generate_traffic_intersection`. -/
def generateTrafficIntersection (env : Env) (n : ℕ) (r : RNG) : SceneData :=
  composeScene "traffic_intersection" "road_surface" (trafficParts env r)
    (fun m => createRoadWithMarkings m (blk r 10)) n

/-- The fixed building / street-furniture / parked-car layout of
`_generate_urban_street`. -/
def urbanParts (env : Env) (r : RNG) : List (List Pt × SceneObj) :=
  let b1 := createBuilding (15, 0, 6) (8, 20, 12) (blk r 0)
  let b2 := createBuilding (-15, 0, 6) (8, 20, 12) (blk r 1)
  let b3 := createBuilding (0, 25, 4) (30, 6, 8) (blk r 2)
  let f1 := createLampPost (6, -5, 1) (blk r 3)
  let f2 := createLampPost (6, 0, 1) (blk r 4)
  let f3 := createLampPost (6, 5, 1) (blk r 5)
  let f4 := createLampPost (-6, -5, 1) (blk r 6)
  let f5 := createLampPost (-6, 0, 1) (blk r 7)
  let f6 := createLampPost (-6, 5, 1) (blk r 8)
  let f7 := createBench (8, -8, 2/5) (blk r 9)
  let f8 := createBench (-8, 8, 2/5) (blk r 10)
  let p1 := createVehicleDetailed env (10, -10, 4/5) 0 "sedan" (blk r 11)
  let p2 := createVehicleDetailed env (10, -5, 4/5) 0 "sedan" (blk r 12)
  let p3 := createVehicleDetailed env (-10, 10, 4/5) env.pi "sedan" (blk r 13)
  [ (b1.1, { otype := "building", id := "building_east", subtype := none,
             position := (15, 0, 6), rotation := none, osize := some (8, 20, 12),
             bbox := b1.2, numPoints := b1.1.length }),
    (b2.1, { otype := "building", id := "building_west", subtype := none,
             position := (-15, 0, 6), rotation := none, osize := some (8, 20, 12),
             bbox := b2.2, numPoints := b2.1.length }),
    (b3.1, { otype := "building", id := "building_north", subtype := none,
             position := (0, 25, 4), rotation := none, osize := some (30, 6, 8),
             bbox := b3.2, numPoints := b3.1.length }),
    (f1.1, { otype := "street_furniture", id := "lamp_1", subtype := some ("furniture_type", "lamp_post"),
             position := (6, -5, 1), rotation := none, osize := none,
             bbox := f1.2, numPoints := f1.1.length }),
    (f2.1, { otype := "street_furniture", id := "lamp_2", subtype := some ("furniture_type", "lamp_post"),
             position := (6, 0, 1), rotation := none, osize := none,
             bbox := f2.2, numPoints := f2.1.length }),
    (f3.1, { otype := "street_furniture", id := "lamp_3", subtype := some ("furniture_type", "lamp_post"),
             position := (6, 5, 1), rotation := none, osize := none,
             bbox := f3.2, numPoints := f3.1.length }),
    (f4.1, { otype := "street_furniture", id := "lamp_4", subtype := some ("furniture_type", "lamp_post"),
             position := (-6, -5, 1), rotation := none, osize := none,
             bbox := f4.2, numPoints := f4.1.length }),
    (f5.1, { otype := "street_furniture", id := "lamp_5", subtype := some ("furniture_type", "lamp_post"),
             position := (-6, 0, 1), rotation := none, osize := none,
             bbox := f5.2, numPoints := f5.1.length }),
    (f6.1, { otype := "street_furniture", id := "lamp_6", subtype := some ("furniture_type", "lamp_post"),
             position := (-6, 5, 1), rotation := none, osize := none,
             bbox := f6.2, numPoints := f6.1.length }),
    (f7.1, { otype := "street_furniture", id := "bench_1", subtype := some ("furniture_type", "bench"),
             position := (8, -8, 2/5), rotation := none, osize := none,
             bbox := f7.2, numPoints := f7.1.length }),
    (f8.1, { otype := "street_furniture", id := "bench_2", subtype := some ("furniture_type", "bench"),
             position := (-8, 8, 2/5), rotation := none, osize := none,
             bbox := f8.2, numPoints := f8.1.length }),
    (p1.1, { otype := "parked_vehicle", id := "parked_car_1", subtype := none,
             position := (10, -10, 4/5), rotation := some 0, osize := none,
             bbox := p1.2, numPoints := p1.1.length }),
    (p2.1, { otype := "parked_vehicle", id := "parked_car_2", subtype := none,
             position := (10, -5, 4/5), rotation := some 0, osize := none,
             bbox := p2.2, numPoints := p2.1.length }),
    (p3.1, { otype := "parked_vehicle", id := "parked_car_3", subtype := none,
             position := (-10, 10, 4/5), rotation := some env.pi, osize := none,
             bbox := p3.2, numPoints := p3.1.length }) ]

/-- `HighPerformanceSampleGenerator._generate_urban_street`. -/
def generateUrbanStreet (env : Env) (n : ℕ) (r : RNG) : SceneData :=
  composeScene "urban_street" "road_surface" (urbanParts env r)
    (fun m => createUrbanRoadSurface m (blk r 20)) n

/-- The fixed ordered vehicle type list of `_generate_parking_lot`. -/
def vehicleTypeChoices : List String := ["sedan", "suv", "truck", "compact"]

/-- One candidate parking space of `_generate_parking_lot`: it is filled with
probability 0.75 (`np.random.random() < 0.75`) by a vehicle whose type is
drawn uniformly from `vehicleTypeChoices` and whose id encodes the
row/space coordinates. -/
def parkingSpace (env : Env) (r : RNG) (row sp : ℕ) : Option (List Pt × SceneObj) :=
  let k := row * 6 + sp
  if r.u k < 3/4 then
    let vt := vehicleTypeChoices.getD (r.c k % 4) "sedan"
    let px := ((sp : ℚ) - 3) * 3
    let py := ((row : ℚ) - 2) * 8
    let vid := "parked_car_r" ++ Nat.repr row ++ "_s" ++ Nat.repr sp
    let res := createVehicleDetailed env (px, py, 4/5) 0 vt (blk r (k + 2))
    some (res.1, { otype := "parked_vehicle", id := vid,
                   subtype := some ("vehicle_type", vt),
                   position := (px, py, 4/5), rotation := some 0, osize := none,
                   bbox := res.2, numPoints := res.1.length })
  else none

/-- The stochastic 4-row, 6-space vehicle grid of `_generate_parking_lot`. -/
def parkingPlaced (env : Env) (r : RNG) : List (List Pt × SceneObj) :=
  ((List.range 4).bind (fun row => (List.range 6).map (fun sp => (row, sp)))).filterMap
    (fun p => parkingSpace env r p.1 p.2)

/-- The five light-pole infrastructure parts of `_generate_parking_lot`. -/
def parkingPoles (env : Env) (r : RNG) : List (List Pt × SceneObj) :=
  let q1 := createLightPole env (0, -20, 3) (blk r 30)
  let q2 := createLightPole env (10, -10, 3) (blk r 31)
  let q3 := createLightPole env (-10, -10, 3) (blk r 32)
  let q4 := createLightPole env (10, 10, 3) (blk r 33)
  let q5 := createLightPole env (-10, 10, 3) (blk r 34)
  [ (q1.1, { otype := "infrastructure", id := "pole_1", subtype := some ("infrastructure_type", "light_pole"),
             position := (0, -20, 3), rotation := none, osize := none,
             bbox := q1.2, numPoints := q1.1.length }),
    (q2.1, { otype := "infrastructure", id := "pole_2", subtype := some ("infrastructure_type", "light_pole"),
             position := (10, -10, 3), rotation := none, osize := none,
             bbox := q2.2, numPoints := q2.1.length }),
    (q3.1, { otype := "infrastructure", id := "pole_3", subtype := some ("infrastructure_type", "light_pole"),
             position := (-10, -10, 3), rotation := none, osize := none,
             bbox := q3.2, numPoints := q3.1.length }),
    (q4.1, { otype := "infrastructure", id := "pole_4", subtype := some ("infrastructure_type", "light_pole"),
             position := (10, 10, 3), rotation := none, osize := none,
             bbox := q4.2, numPoints := q4.1.length }),
    (q5.1, { otype := "infrastructure", id := "pole_5", subtype := some ("infrastructure_type", "light_pole"),
             position := (-10, 10, 3), rotation := none, osize := none,
             bbox := q5.2, numPoints := q5.1.length }) ]

/-- `HighPerformanceSampleGenerator._generate_parking_lot`. -/
def generateParkingLot (env : Env) (n : ℕ) (r : RNG) : SceneData :=
  composeScene "parking_lot" "parking_surface" (parkingPlaced env r ++ parkingPoles env r)
    (fun m => createParkingSurface m (blk r 40)) n

/-- The cumulative fixed-object point footprint of a parking-lot run:
whatever the stochastic grid placed, plus the five 80-point light poles. -/
def parkingFootprint (env : Env) (r : RNG) : ℕ :=
  ((parkingPlaced env r).map Prod.fst).join.length + 400

/-- `HighPerformanceSampleGenerator._generate_preset_data`: string dispatch on
the preset name.  The fallback branch calls `self._generate_random_scene`,
a method defined nowhere in the repository, so it raises `AttributeError`. -/
def generatePresetData (env : Env) (preset : String) (n : ℕ) (r : RNG) :
    Except String SceneData :=
  if preset = "traffic_scene" then .ok (generateTrafficIntersection env n r)
  else if preset = "urban_street" then .ok (generateUrbanStreet env n r)
  else if preset = "parking_lot" then .ok (generateParkingLot env n r)
  else .error "AttributeError: _generate_random_scene is not defined"

/-! ### Backend samplers of `PointCloudProcessor` (`src/backend/app.py`) -/

/-- One main-pole point of `PointCloudProcessor._generate_traffic_light`. -/
def appTlPolePt (c : ℚ × ℚ × ℚ) (r : RNG) (i : ℕ) : Pt :=
  { x := c.1 + nrm 0 (1/20) (r.g (4*i))
    y := c.2.1 + nrm 0 (1/20) (r.g (4*i+1))
    z := unif 0 c.2.2 (r.u (4*i))
    intensity := 3/5 + unif 0 (1/5) (r.u (4*i+1)) }

/-- One housing point of `PointCloudProcessor._generate_traffic_light`. -/
def appTlHousingPt (c : ℚ × ℚ × ℚ) (r : RNG) (i : ℕ) : Pt :=
  { x := c.1 + unif (-(1/5)) (1/5) (r.u (4*i))
    y := c.2.1 + unif (-(1/10)) (1/10) (r.u (4*i+1))
    z := c.2.2 + unif (-(3/10)) (3/10) (r.u (4*i+2))
    intensity := 4/5 + unif 0 (1/5) (r.u (4*i+3)) }

/-- One mounting-arm point of `PointCloudProcessor._generate_traffic_light`. -/
def appTlArmPt (c : ℚ × ℚ × ℚ) (r : RNG) (i : ℕ) : Pt :=
  { x := c.1 + unif (-1) 0 (r.u (4*i))
    y := c.2.1 + nrm 0 (1/20) (r.g (4*i))
    z := c.2.2 + unif (-(1/10)) (1/10) (r.u (4*i+1))
    intensity := 7/10 + unif 0 (1/5) (r.u (4*i+2)) }

/-- `PointCloudProcessor._generate_traffic_light`: three loops of
`num_points // 3` iterations each (pole, housing, arm) — in total
`3 * (n / 3)` points, not necessarily `n`. -/
def appTrafficLight (c : ℚ × ℚ × ℚ) (n : ℕ) (r : RNG) : List Pt :=
  (List.range (n / 3)).map (appTlPolePt c (seg r 0)) ++
  (List.range (n / 3)).map (appTlHousingPt c (seg r 1)) ++
  (List.range (n / 3)).map (appTlArmPt c (seg r 2))

/-- One body point of `PointCloudProcessor._generate_car`
(fixed sedan dimensions 4.5 × 1.8 × 1.4). -/
def appCarPt (env : Env) (c : ℚ × ℚ × ℚ) (yaw : ℚ) (r : RNG) (i : ℕ) : Pt :=
  let lx := unif (-(9/4)) (9/4) (r.u (4*i))
  let ly := unif (-(9/10)) (9/10) (r.u (4*i+1))
  let lz := unif 0 (7/5) (r.u (4*i+2))
  { x := c.1 + (lx * env.cos yaw - ly * env.sin yaw)
    y := c.2.1 + (lx * env.sin yaw + ly * env.cos yaw)
    z := c.2.2 + lz
    intensity := 2/5 + unif 0 (2/5) (r.u (4*i+3)) }

/-- `PointCloudProcessor._generate_car`: exactly `n` body points. -/
def appCar (env : Env) (c : ℚ × ℚ × ℚ) (yaw : ℚ) (n : ℕ) (r : RNG) : List Pt :=
  (List.range n).map (appCarPt env c yaw r)

/-- One point of `PointCloudProcessor._generate_road_surface`. -/
def appRoadPt (r : RNG) (i : ℕ) : Pt :=
  { x := unif (-20) 20 (r.u (4*i))
    y := unif (-15) 15 (r.u (4*i+1))
    z := unif (-(1/10)) (1/10) (r.u (4*i+2))
    intensity := 1/5 + unif 0 (1/5) (r.u (4*i+3)) }

/-- `PointCloudProcessor._generate_road_surface` (empty for a negative
remaining count, as Python `range` is). -/
def appRoadSurface (m : ℤ) (r : RNG) : List Pt :=
  (List.range m.toNat).map (appRoadPt r)

/-- The columnar record built by `PointCloudProcessor._to_pyarrow_table`:
float32 coordinate/intensity columns, a string label column and a constant
float64 timestamp column. -/
structure Table where
  xcol : List ℚ
  ycol : List ℚ
  zcol : List ℚ
  icol : List ℚ
  labelCol : List String
  tsCol : List ℚ

/-- `PointCloudProcessor._to_pyarrow_table`: `np.array([])` is 1-dimensional,
so column slicing `points_array[:, 0]` raises `IndexError` on an empty point
list (modelled `none`); `pa.table` also rejects columns of unequal length. -/
def toPyarrowTable (pts : List Pt) (lbls : List String) (t : ℚ) : Option Table :=
  if pts = [] then none
  else if lbls.length ≠ pts.length then none
  else some { xcol := pts.map Pt.x, ycol := pts.map Pt.y, zcol := pts.map Pt.z,
              icol := pts.map Pt.intensity, labelCol := lbls,
              tsCol := List.replicate pts.length t }

/-- The fixed-layout object points of `PointCloudProcessor._create_traffic_scene`:
three 200-budget traffic lights and six 300-point cars
(yaw literals 0, 3.14 and 1.57 as in the source). -/
def appTrafficObjPts (env : Env) (r : RNG) : List Pt :=
  appTrafficLight (5, -2, 7/2) 200 (blk r 0) ++
  appTrafficLight (-5, 2, 7/2) 200 (blk r 1) ++
  appTrafficLight (0, 5, 7/2) 200 (blk r 2) ++
  appCar env (8, -5, 4/5) 0 300 (blk r 3) ++
  appCar env (12, -5, 4/5) 0 300 (blk r 4) ++
  appCar env (-8, 5, 4/5) (157/50) 300 (blk r 5) ++
  appCar env (-12, 5, 4/5) (157/50) 300 (blk r 6) ++
  appCar env (2, 10, 4/5) (157/100) 300 (blk r 7) ++
  appCar env (-2, 10, 4/5) (157/100) 300 (blk r 8)

/-- The labels parallel to `appTrafficObjPts`, one object id per point. -/
def appTrafficObjLabels (env : Env) (r : RNG) : List String :=
  List.replicate (appTrafficLight (5, -2, 7/2) 200 (blk r 0)).length "traffic_light_1" ++
  List.replicate (appTrafficLight (-5, 2, 7/2) 200 (blk r 1)).length "traffic_light_2" ++
  List.replicate (appTrafficLight (0, 5, 7/2) 200 (blk r 2)).length "traffic_light_3" ++
  List.replicate (appCar env (8, -5, 4/5) 0 300 (blk r 3)).length "car_1" ++
  List.replicate (appCar env (12, -5, 4/5) 0 300 (blk r 4)).length "car_2" ++
  List.replicate (appCar env (-8, 5, 4/5) (157/50) 300 (blk r 5)).length "car_3" ++
  List.replicate (appCar env (-12, 5, 4/5) (157/50) 300 (blk r 6)).length "car_4" ++
  List.replicate (appCar env (2, 10, 4/5) (157/100) 300 (blk r 7)).length "car_5" ++
  List.replicate (appCar env (-2, 10, 4/5) (157/100) 300 (blk r 8)).length "car_6"

/-- `PointCloudProcessor._create_traffic_scene`: objects, then road fill with
the remaining budget, then the slice `points[:num_points]` /
`labels[:num_points]` before table construction. -/
def appCreateTrafficScene (env : Env) (n : ℕ) (r : RNG) (t : ℚ) : Option Table :=
  let objPts := appTrafficObjPts env r
  let road := appRoadSurface ((n : ℤ) - objPts.length) (blk r 9)
  let pts := objPts ++ road
  let lbls := appTrafficObjLabels env r ++ List.replicate road.length "road"
  toPyarrowTable (pts.take n) (lbls.take n) t

/-- `PointCloudProcessor.generate_sample_data`: string dispatch on the preset.
Only `_create_traffic_scene` exists in `app.py`; `_create_urban_street`,
`_create_parking_lot` and `_create_random_scene` are called here but defined
nowhere in the repository, so those branches raise `AttributeError`. -/
def appGenerateSampleData (env : Env) (preset : String) (n : ℕ) (r : RNG) (t : ℚ) :
    Except String Table :=
  if preset = "traffic_scene" then
    match appCreateTrafficScene env n r t with
    | some tb => .ok tb
    | none => .error "IndexError: too many indices for array"
  else if preset = "urban_street" then
    .error "AttributeError: _create_urban_street is not defined"
  else if preset = "parking_lot" then
    .error "AttributeError: _create_parking_lot is not defined"
  else
    .error "AttributeError: _create_random_scene is not defined"

/-! ### JSON document exporter (`_save_as_json`) -/

/-- JSON values as written by `json.dump` (numbers kept exact). -/
inductive JVal where
  | num (q : ℚ)
  | str (s : String)
  | arr (l : List JVal)
  | obj (kvs : List (String × JVal))

/-- First-match key lookup in a JSON object, as a parsed Python dict does. -/
def keyFind (k : String) : List (String × JVal) → Option JVal
  | [] => none
  | (k2, v) :: rest => if k2 = k then some v else keyFind k rest

/-- Encode a coordinate triple as a 3-element JSON array. -/
def encodeTriple (p : ℚ × ℚ × ℚ) : JVal :=
  .arr [.num p.1, .num p.2.1, .num p.2.2]

/-- Encode a bounding box as its `{center, size, rotation}` dict. -/
def encodeBBox (b : BBox) : JVal :=
  .obj [("center", encodeTriple b.center), ("size", encodeTriple b.size),
        ("rotation", .num b.rot)]

/-- Encode the six scene-bounds extents. -/
def encodeBounds (b : Bounds) : JVal :=
  .obj [("x_min", .num b.xmin), ("x_max", .num b.xmax),
        ("y_min", .num b.ymin), ("y_max", .num b.ymax),
        ("z_min", .num b.zmin), ("z_max", .num b.zmax)]

/-- Encode one scene-object dict in the key order the composers build it:
`type`, `id`, the optional subtype key, `position`, the optional `rotation`,
the optional `size`, `bounding_box`, `num_points`. -/
def encodeObj (o : SceneObj) : JVal :=
  .obj ([("type", JVal.str o.otype), ("id", JVal.str o.id)] ++
        (match o.subtype with
         | some kv => [(kv.1, JVal.str kv.2)]
         | none => []) ++
        [("position", encodeTriple o.position)] ++
        (match o.rotation with
         | some q => [("rotation", JVal.num q)]
         | none => []) ++
        (match o.osize with
         | some s => [("size", encodeTriple s)]
         | none => []) ++
        [("bounding_box", encodeBBox o.bbox), ("num_points", JVal.num o.numPoints)])

/-- `HighPerformanceSampleGenerator._save_as_json`: the full-fidelity document
with nested point rows, the parallel labels array, the scene-object list and
the metadata block. -/
def saveAsJson (d : SceneData) : JVal :=
  .obj [("points", .arr (d.points.map (fun p =>
          JVal.arr [.num p.x, .num p.y, .num p.z, .num p.intensity]))),
        ("labels", .arr (d.labels.map JVal.str)),
        ("scene_objects", .arr (d.sceneObjects.map encodeObj)),
        ("metadata", .obj [("total_points", .num d.totalPoints),
                           ("num_objects", .num d.numObjects),
                           ("scene_bounds",
                            match d.sceneBounds with
                            | some b => encodeBounds b
                            | none => .obj [])])]

/-! ### Reparsing the JSON document -/

/-- Parse a JSON number. -/
def decodeNum : JVal → Option ℚ
  | .num q => some q
  | _ => none

/-- Parse a JSON number that stores a Python `int`. -/
def decodeNat : JVal → Option ℕ
  | .num q => if q.den = 1 ∧ 0 ≤ q.num then some q.num.toNat else none
  | _ => none

/-- Parse a 3-element JSON array of numbers. -/
def decodeTriple : JVal → Option (ℚ × ℚ × ℚ)
  | .arr [.num a, .num b, .num c] => some (a, b, c)
  | _ => none

/-- Parse a bounding-box dict. -/
def decodeBBox : JVal → Option BBox
  | .obj kvs =>
    match (keyFind "center" kvs).bind decodeTriple,
          (keyFind "size" kvs).bind decodeTriple,
          (keyFind "rotation" kvs).bind decodeNum with
    | some cen, some sz, some rot => some { center := cen, size := sz, rot := rot }
    | _, _, _ => none
  | _ => none

/-- Parse an optional field: an absent key parses to `none`, a present key
must parse with `f`. -/
def decodeOpt (f : JVal → Option α) : Option JVal → Option (Option α)
  | none => some none
  | some j => (f j).map some

/-- Recover the object's optional subtype field from whichever of the three
known subtype keys is present. -/
def decodeSubtype (kvs : List (String × JVal)) : Option (String × String) :=
  match keyFind "vehicle_type" kvs with
  | some (.str v) => some ("vehicle_type", v)
  | _ =>
    match keyFind "furniture_type" kvs with
    | some (.str v) => some ("furniture_type", v)
    | _ =>
      match keyFind "infrastructure_type" kvs with
      | some (.str v) => some ("infrastructure_type", v)
      | _ => none

/-- Parse one scene-object dict back into a `SceneObj`. -/
def decodeObj : JVal → Option SceneObj
  | .obj kvs =>
    match keyFind "type" kvs, keyFind "id" kvs,
          (keyFind "position" kvs).bind decodeTriple,
          (keyFind "bounding_box" kvs).bind decodeBBox,
          (keyFind "num_points" kvs).bind decodeNat with
    | some (.str t), some (.str i), some pos, some bb, some np =>
      match decodeOpt decodeNum (keyFind "rotation" kvs),
            decodeOpt decodeTriple (keyFind "size" kvs) with
      | some rot, some sz =>
        some { otype := t, id := i, subtype := decodeSubtype kvs, position := pos,
               rotation := rot, osize := sz, bbox := bb, numPoints := np }
      | _, _ => none
    | _, _, _, _, _ => none
  | _ => none

/-- Parse a JSON array of scene-object dicts. -/
def decodeObjList : List JVal → Option (List SceneObj)
  | [] => some []
  | j :: js =>
    match decodeObj j, decodeObjList js with
    | some o, some os => some (o :: os)
    | _, _ => none

/-- Reparse the saved JSON document, returning the `scene_objects` list and
the `metadata.total_points` / `metadata.num_objects` entries. -/
def parseSceneDoc (j : JVal) : Option (List SceneObj × ℕ × ℕ) :=
  match j with
  | .obj kvs =>
    match keyFind "scene_objects" kvs, keyFind "metadata" kvs with
    | some (.arr objsJ), some (.obj mkvs) =>
      match decodeObjList objsJ,
            (keyFind "total_points" mkvs).bind decodeNat,
            (keyFind "num_objects" mkvs).bind decodeNat with
      | some objs, some tp, some no => some (objs, tp, no)
      | _, _, _ => none
    | _, _ => none
  | _ => none

/-! ### Concrete witnesses for evaluation -/

/-- The all-zero draw stream (a valid stream: every unit draw is 0). -/
def rng0 : RNG := ⟨fun _ => 0, fun _ => 0, fun _ => 0⟩

/-- The all-one draw stream (a valid stream: every unit draw is 1). -/
def rng1 : RNG := ⟨fun _ => 1, fun _ => 0, fun _ => 0⟩

/-- A concrete trigonometric environment for witnesses. -/
def env0 : Env := ⟨0, fun _ => 1, fun _ => 0⟩

/-! ### Predicates and projections used by the claim statements -/

/-- A point lies inside the six extents (inclusive). -/
def PtIn (b : Bounds) (p : Pt) : Prop :=
  b.xmin ≤ p.x ∧ p.x ≤ b.xmax ∧ b.ymin ≤ p.y ∧ p.y ≤ b.ymax ∧ b.zmin ≤ p.z ∧ p.z ≤ b.zmax

/-- The computed bounds exist, are ordered on every axis, and contain every
accumulated point. -/
def boundsOk : Option Bounds → List Pt → Prop
  | none, _ => False
  | some b, ps =>
    (b.xmin ≤ b.xmax ∧ b.ymin ≤ b.ymax ∧ b.zmin ≤ b.zmax) ∧ ∀ p ∈ ps, PtIn b p

/-- Every point of the list has its intensity in the closed interval `[0,1]`. -/
def IntensOK (ps : List Pt) : Prop := ∀ p ∈ ps, 0 ≤ p.intensity ∧ p.intensity ≤ 1

/-- The lengths of the six columns of a built table (`none` when the table
construction raised). -/
def tableColLens (o : Option Table) : Option (ℕ × ℕ × ℕ × ℕ × ℕ × ℕ) :=
  o.map (fun tb => (tb.xcol.length, tb.ycol.length, tb.zcol.length,
    tb.icol.length, tb.labelCol.length, tb.tsCol.length))

/-- The row count of a built table, read off its x column. -/
def tableRows (o : Option Table) : Option ℕ := o.map (fun tb => tb.xcol.length)

/-- The scene-object dict shapes the composers actually build: the optional
subtype entry, when present, uses one of the three known keys. -/
def WFObj (o : SceneObj) : Prop :=
  match o.subtype with
  | none => True
  | some kv => kv.1 = "vehicle_type" ∨ kv.1 = "furniture_type" ∨ kv.1 = "infrastructure_type"

/-! ### Point-count bookkeeping -/

lemma len_bld (c sz r) :
    (createBuilding c sz r).1.length = (pyInt (sz.1 * sz.2.1 * sz.2.2 / 2)).toNat := by
  simp [createBuilding]

lemma len_lamp (c r) : (createLampPost c r).1.length = 45 := by simp [createLampPost]

lemma len_bench (c r) : (createBench c r).1.length = 40 := by simp [createBench]

lemma len_veh (env c rot vt r) :
    (createVehicleDetailed env c rot vt r).1.length = vehicleDensity vt := by
  simp [createVehicleDetailed]

lemma len_tl (env c rot r) : (createTrafficLightDetailed env c rot r).1.length = 180 := by
  simp [createTrafficLightDetailed]

lemma len_lp (env c r) : (createLightPole env c r).1.length = 80 := by simp [createLightPole]

lemma bld_count : (pyInt ((8:ℚ) * 20 * 12 / 2)).toNat = 960 := by
  norm_num [pyInt]; rfl

lemma bld_count2 : (pyInt ((30:ℚ) * 6 * 8 / 2)).toNat = 720 := by
  norm_num [pyInt]; rfl

lemma join_fst_len (parts : List (List Pt × SceneObj)) :
    ((parts.map Prod.fst).join).length = (parts.map (fun pr => pr.1.length)).sum := by
  simp [List.length_join]; rfl

set_option maxRecDepth 8000 in
lemma urban_parts_lens (env r) :
    (urbanParts env r).map (fun pr => pr.1.length) =
      [960, 960, 720, 45, 45, 45, 45, 45, 45, 40, 40, 250, 250, 250] := by
  simp [urbanParts, len_bld, len_lamp, len_bench, len_veh, vehicleDensity, bld_count, bld_count2]

lemma urban_obj_len (env r) :
    ((( urbanParts env r).map Prod.fst).join).length = 3740 := by
  rw [join_fst_len, urban_parts_lens]; norm_num

lemma len_urbroad (m r) : (createUrbanRoadSurface m r).length = m.toNat := by
  simp [createUrbanRoadSurface]

/-- The urban-street composition always carries the 3740 fixed-layout points
plus the clamped surface remainder. -/
lemma urban_len (env n r) :
    (generateUrbanStreet env n r).points.length = 3740 + ((n : ℤ) - 3740).toNat := by
  show ((( urbanParts env r).map Prod.fst).join ++ _).length = _
  rw [List.length_append, urban_obj_len, len_urbroad]
  omega

set_option maxRecDepth 8000 in
lemma traffic_parts_lens (env r) :
    (trafficParts env r).map (fun pr => pr.1.length) =
      [180, 180, 180, 180, 250, 300, 400, 250, 250, 300] := by
  simp [trafficParts, len_tl, len_veh, vehicleDensity]

lemma traffic_obj_len (env r) :
    ((( trafficParts env r).map Prod.fst).join).length = 2470 := by
  rw [join_fst_len, traffic_parts_lens]; norm_num

lemma len_road (m r) : (createRoadWithMarkings m r).length = m.toNat := by
  simp [createRoadWithMarkings]

/-- The traffic-intersection composition always carries the 2470 fixed-layout
points plus the clamped surface remainder. -/
lemma traffic_len (env n r) :
    (generateTrafficIntersection env n r).points.length = 2470 + ((n : ℤ) - 2470).toNat := by
  show ((( trafficParts env r).map Prod.fst).join ++ _).length = _
  rw [List.length_append, traffic_obj_len, len_road]
  omega

lemma parking_poles_lens (env r) :
    (parkingPoles env r).map (fun pr => pr.1.length) = [80, 80, 80, 80, 80] := by
  simp [parkingPoles, len_lp]

lemma len_prkroad (m r) : (createParkingSurface m r).length = m.toNat := by
  simp [createParkingSurface]

/-- The parking-lot composition always carries its (stochastic) fixed-layout
footprint plus the clamped surface remainder. -/
lemma parking_len (env n r) :
    (generateParkingLot env n r).points.length =
      parkingFootprint env r + ((n : ℤ) - parkingFootprint env r).toNat := by
  show ((( parkingPlaced env r ++ parkingPoles env r).map Prod.fst).join ++ _).length = _
  rw [List.length_append, join_fst_len, List.map_append, List.sum_append, parking_poles_lens]
  rw [len_prkroad]
  rw [parkingFootprint, join_fst_len]
  norm_num

/-! ### Intensity range lemmas -/
lemma valid_seg (r k) (h : ValidRNG r) : ValidRNG (seg r k) := fun _ => h _

lemma valid_blk (r k) (h : ValidRNG r) : ValidRNG (blk r k) := fun _ => h _

lemma intens_add (c d u : ℚ) (hc : 0 ≤ c) (hd : 0 ≤ d) (hcd : c + d ≤ 1)
    (h0 : 0 ≤ u) (h1 : u ≤ 1) : 0 ≤ c + unif 0 d u ∧ c + unif 0 d u ≤ 1 := by
  unfold unif; constructor <;> nlinarith

lemma intensOK_append {l1 l2 : List Pt} (h1 : IntensOK l1) (h2 : IntensOK l2) :
    IntensOK (l1 ++ l2) := by
  intro p hp
  rcases List.mem_append.mp hp with h | h
  exacts [h1 p h, h2 p h]

lemma intensOK_map {f : ℕ → Pt} {n : ℕ}
    (hf : ∀ i, 0 ≤ (f i).intensity ∧ (f i).intensity ≤ 1) :
    IntensOK ((List.range n).map f) := by
  intro p hp
  rcases List.mem_map.mp hp with ⟨i, _, rfl⟩
  exact hf i

lemma intens_tl (env c rot r) (h : ValidRNG r) :
    IntensOK (createTrafficLightDetailed env c rot r).1 := by
  refine intensOK_append (intensOK_append (intensOK_map ?_) (intensOK_map ?_)) (intensOK_map ?_)
  · intro i
    simp only [tlPolePt]
    exact intens_add _ _ _ (by norm_num) (by norm_num) (by norm_num)
      ((valid_seg r 0 h) _).1 ((valid_seg r 0 h) _).2
  · intro i
    simp only [tlHousingPt]
    exact intens_add _ _ _ (by norm_num) (by norm_num) (by norm_num)
      ((valid_seg r 1 h) _).1 ((valid_seg r 1 h) _).2
  · intro i
    simp only [tlArmPt]
    exact intens_add _ _ _ (by norm_num) (by norm_num) (by norm_num)
      ((valid_seg r 2 h) _).1 ((valid_seg r 2 h) _).2

lemma intens_veh (env c rot vt r) (h : ValidRNG r) :
    IntensOK (createVehicleDetailed env c rot vt r).1 := by
  refine intensOK_map ?_
  intro i
  simp only [vehiclePt]
  split
  · exact intens_add _ _ _ (by norm_num) (by norm_num) (by norm_num) (h _).1 (h _).2
  · exact intens_add _ _ _ (by norm_num) (by norm_num) (by norm_num) (h _).1 (h _).2

lemma intens_bld (c sz r) (h : ValidRNG r) : IntensOK (createBuilding c sz r).1 := by
  refine intensOK_map ?_
  intro i
  simp only [buildingPt]
  exact intens_add _ _ _ (by norm_num) (by norm_num) (by norm_num) (h _).1 (h _).2

lemma intens_lamp (c r) (h : ValidRNG r) : IntensOK (createLampPost c r).1 := by
  refine intensOK_append (intensOK_map ?_) (intensOK_map ?_)
  · intro i
    simp only [lampPolePt]
    exact intens_add _ _ _ (by norm_num) (by norm_num) (by norm_num)
      ((valid_seg r 0 h) _).1 ((valid_seg r 0 h) _).2
  · intro i
    simp only [lampHousingPt]
    exact intens_add _ _ _ (by norm_num) (by norm_num) (by norm_num)
      ((valid_seg r 1 h) _).1 ((valid_seg r 1 h) _).2

lemma intens_bench (c r) (h : ValidRNG r) : IntensOK (createBench c r).1 := by
  refine intensOK_map ?_
  intro i
  simp only [benchPt]
  exact intens_add _ _ _ (by norm_num) (by norm_num) (by norm_num) (h _).1 (h _).2

lemma intens_lp (env c r) (h : ValidRNG r) : IntensOK (createLightPole env c r).1 := by
  refine intensOK_append (intensOK_map ?_)
    (intensOK_append (intensOK_append (intensOK_map ?_) (intensOK_map ?_)) (intensOK_map ?_))
  · intro i
    simp only [lpPolePt]
    exact intens_add _ _ _ (by norm_num) (by norm_num) (by norm_num)
      ((valid_seg r 0 h) _).1 ((valid_seg r 0 h) _).2
  all_goals
    intro i
    simp only [lpFixturePt]
  · exact intens_add _ _ _ (by norm_num) (by norm_num) (by norm_num)
      ((valid_seg r 1 h) _).1 ((valid_seg r 1 h) _).2
  · exact intens_add _ _ _ (by norm_num) (by norm_num) (by norm_num)
      ((valid_seg r 2 h) _).1 ((valid_seg r 2 h) _).2
  · exact intens_add _ _ _ (by norm_num) (by norm_num) (by norm_num)
      ((valid_seg r 3 h) _).1 ((valid_seg r 3 h) _).2

lemma intens_road (m r) (h : ValidRNG r) : IntensOK (createRoadWithMarkings m r) := by
  refine intensOK_map ?_
  intro i
  simp only [roadMarkPt]
  split
  · exact intens_add _ _ _ (by norm_num) (by norm_num) (by norm_num) (h _).1 (h _).2
  · exact intens_add _ _ _ (by norm_num) (by norm_num) (by norm_num) (h _).1 (h _).2

lemma intens_urbroad (m r) (h : ValidRNG r) : IntensOK (createUrbanRoadSurface m r) := by
  refine intensOK_map ?_
  intro i
  simp only [urbanRoadPt]
  split
  · exact intens_add _ _ _ (by norm_num) (by norm_num) (by norm_num) (h _).1 (h _).2
  · exact intens_add _ _ _ (by norm_num) (by norm_num) (by norm_num) (h _).1 (h _).2

lemma intens_prkroad (m r) (h : ValidRNG r) : IntensOK (createParkingSurface m r) := by
  refine intensOK_map ?_
  intro i
  simp only [parkingSurfacePt]
  split
  · exact intens_add _ _ _ (by norm_num) (by norm_num) (by norm_num) (h _).1 (h _).2
  · exact intens_add _ _ _ (by norm_num) (by norm_num) (by norm_num) (h _).1 (h _).2

lemma intens_app_tl (c n r) (h : ValidRNG r) : IntensOK (appTrafficLight c n r) := by
  refine intensOK_append (intensOK_append (intensOK_map ?_) (intensOK_map ?_)) (intensOK_map ?_)
  · intro i
    simp only [appTlPolePt]
    exact intens_add _ _ _ (by norm_num) (by norm_num) (by norm_num)
      ((valid_seg r 0 h) _).1 ((valid_seg r 0 h) _).2
  · intro i
    simp only [appTlHousingPt]
    exact intens_add _ _ _ (by norm_num) (by norm_num) (by norm_num)
      ((valid_seg r 1 h) _).1 ((valid_seg r 1 h) _).2
  · intro i
    simp only [appTlArmPt]
    exact intens_add _ _ _ (by norm_num) (by norm_num) (by norm_num)
      ((valid_seg r 2 h) _).1 ((valid_seg r 2 h) _).2

lemma intens_app_car (env c yaw n r) (h : ValidRNG r) : IntensOK (appCar env c yaw n r) := by
  refine intensOK_map ?_
  intro i
  simp only [appCarPt]
  exact intens_add _ _ _ (by norm_num) (by norm_num) (by norm_num) (h _).1 (h _).2

lemma intens_app_road (m r) (h : ValidRNG r) : IntensOK (appRoadSurface m r) := by
  refine intensOK_map ?_
  intro i
  simp only [appRoadPt]
  exact intens_add _ _ _ (by norm_num) (by norm_num) (by norm_num) (h _).1 (h _).2

/-! ### JSON round-trip lemmas -/
lemma decodeTriple_encodeTriple (p : ℚ × ℚ × ℚ) : decodeTriple (encodeTriple p) = some p := by
  simp [decodeTriple, encodeTriple]

lemma decodeBBox_encodeBBox (b : BBox) : decodeBBox (encodeBBox b) = some b := by
  simp [decodeBBox, encodeBBox, keyFind, decodeTriple_encodeTriple, decodeNum]

lemma decodeNat_natCast (n : ℕ) : decodeNat (JVal.num n) = some n := by
  simp [decodeNat]

lemma decodeObj_encodeObj (o : SceneObj) (hwf : WFObj o) :
    decodeObj (encodeObj o) = some o := by
  obtain ⟨t, i, sub, pos, rot, sz, bb, np⟩ := o
  rcases sub with _ | ⟨k, v⟩
  · rcases rot with _ | q <;> rcases sz with _ | s <;>
      simp [encodeObj, decodeObj, keyFind, decodeSubtype, decodeOpt, decodeNum,
        decodeTriple_encodeTriple, decodeBBox_encodeBBox, decodeNat_natCast]
  · rcases hwf with hk | hk | hk <;> subst hk <;> rcases rot with _ | q <;> rcases sz with _ | s <;>
      simp [encodeObj, decodeObj, keyFind, decodeSubtype, decodeOpt, decodeNum,
        decodeTriple_encodeTriple, decodeBBox_encodeBBox, decodeNat_natCast]

lemma decodeObjList_map (l : List SceneObj) (h : ∀ o ∈ l, WFObj o) :
    decodeObjList (l.map encodeObj) = some l := by
  induction l with
  | nil => rfl
  | cons o t ih =>
    simp only [List.map_cons, decodeObjList]
    rw [decodeObj_encodeObj o (h o (List.mem_cons_self o t)),
        ih (fun q hq => h q (List.mem_cons_of_mem o hq))]

/-- `json.load` over the `_save_as_json` document recovers `scene_objects`,
`metadata.total_points` and `metadata.num_objects` exactly. -/
lemma parse_save (d : SceneData) (h : ∀ o ∈ d.sceneObjects, WFObj o) :
    parseSceneDoc (saveAsJson d) = some (d.sceneObjects, d.totalPoints, d.numObjects) := by
  simp only [saveAsJson, parseSceneDoc, keyFind, String.reduceEq, if_false, if_true,
    reduceIte]
  rw [decodeObjList_map d.sceneObjects h]
  simp [keyFind, decodeNat_natCast, String.reduceEq]

set_option maxRecDepth 8000 in
lemma wf_traffic (env n r) :
    ∀ o ∈ (generateTrafficIntersection env n r).sceneObjects, WFObj o := by
  intro o ho
  simp only [generateTrafficIntersection, composeScene, trafficParts, List.map_cons,
    List.map_nil, List.mem_cons, List.not_mem_nil, or_false] at ho
  rcases ho with rfl|rfl|rfl|rfl|rfl|rfl|rfl|rfl|rfl|rfl <;> simp [WFObj]

set_option maxRecDepth 8000 in
lemma wf_urban (env n r) :
    ∀ o ∈ (generateUrbanStreet env n r).sceneObjects, WFObj o := by
  intro o ho
  simp only [generateUrbanStreet, composeScene, urbanParts, List.map_cons,
    List.map_nil, List.mem_cons, List.not_mem_nil, or_false] at ho
  rcases ho with rfl|rfl|rfl|rfl|rfl|rfl|rfl|rfl|rfl|rfl|rfl|rfl|rfl|rfl <;> simp [WFObj]

lemma wf_parkingPlaced (env r) : ∀ pr ∈ parkingPlaced env r, WFObj pr.2 := by
  intro pr hpr
  rcases List.mem_filterMap.mp hpr with ⟨p, _, hp⟩
  unfold parkingSpace at hp
  dsimp only at hp
  split at hp
  · rw [Option.some.injEq] at hp
    subst hp
    simp [WFObj]
  · cases hp

lemma wf_parking (env n r) :
    ∀ o ∈ (generateParkingLot env n r).sceneObjects, WFObj o := by
  intro o ho
  have ho2 : o ∈ (parkingPlaced env r ++ parkingPoles env r).map Prod.snd := ho
  rcases List.mem_map.mp ho2 with ⟨pr, hpr, rfl⟩
  rcases List.mem_append.mp hpr with hin | hin
  · exact wf_parkingPlaced env r pr hin
  · simp only [parkingPoles, List.mem_cons, List.not_mem_nil, or_false] at hin
    rcases hin with rfl|rfl|rfl|rfl|rfl <;> simp [WFObj]

/-! ### Scene bounds lemmas -/

lemma foldl_min_le_init (l : List ℚ) (a : ℚ) : l.foldl min a ≤ a := by
  induction l generalizing a with
  | nil => simp
  | cons b t ih => exact le_trans (ih (min a b)) (min_le_left a b)

lemma foldl_min_le_mem (l : List ℚ) (a b : ℚ) (hb : b ∈ l) : l.foldl min a ≤ b := by
  induction l generalizing a with
  | nil => cases hb
  | cons x t ih =>
    rcases List.mem_cons.mp hb with rfl | h
    · exact le_trans (foldl_min_le_init t (min a b)) (min_le_right a b)
    · exact ih (min a x) h

lemma le_foldl_max_init (l : List ℚ) (a : ℚ) : a ≤ l.foldl max a := by
  induction l generalizing a with
  | nil => simp
  | cons b t ih => exact le_trans (le_max_left a b) (ih (max a b))

lemma le_foldl_max_mem (l : List ℚ) (a b : ℚ) (hb : b ∈ l) : b ≤ l.foldl max a := by
  induction l generalizing a with
  | nil => cases hb
  | cons x t ih =>
    rcases List.mem_cons.mp hb with rfl | h
    · exact le_trans (le_max_right a b) (le_foldl_max_init t (max a b))
    · exact ih (max a x) h

/-- `_calculate_bounds` on any non-empty accumulation is ordered and contains
every point. -/
lemma calculateBounds_ok : ∀ ps : List Pt, ps ≠ [] → boundsOk (calculateBounds ps) ps := by
  intro ps hne
  match ps with
  | p :: tl =>
    simp only [calculateBounds, boundsOk]
    constructor
    · refine ⟨?_, ?_, ?_⟩ <;>
        exact le_trans (foldl_min_le_init _ _) (le_foldl_max_init _ _)
    · intro q hq
      rcases List.mem_cons.mp hq with rfl | hq
      · exact ⟨foldl_min_le_init _ _, le_foldl_max_init _ _,
               foldl_min_le_init _ _, le_foldl_max_init _ _,
               foldl_min_le_init _ _, le_foldl_max_init _ _⟩
      · exact ⟨foldl_min_le_mem _ _ _ (List.mem_map_of_mem _ hq),
               le_foldl_max_mem _ _ _ (List.mem_map_of_mem _ hq),
               foldl_min_le_mem _ _ _ (List.mem_map_of_mem _ hq),
               le_foldl_max_mem _ _ _ (List.mem_map_of_mem _ hq),
               foldl_min_le_mem _ _ _ (List.mem_map_of_mem _ hq),
               le_foldl_max_mem _ _ _ (List.mem_map_of_mem _ hq)⟩

lemma composeScene_bounds (stype sl parts surf n) :
    (composeScene stype sl parts surf n).sceneBounds =
      calculateBounds ((composeScene stype sl parts surf n).points) := rfl

lemma parkingFootprint_ge (env r) : 400 ≤ parkingFootprint env r := by
  rw [parkingFootprint]; omega

lemma traffic_bounds_ok (env n r) :
    boundsOk ((generateTrafficIntersection env n r).sceneBounds)
      ((generateTrafficIntersection env n r).points) := by
  rw [generateTrafficIntersection, composeScene_bounds]
  apply calculateBounds_ok
  apply List.ne_nil_of_length_pos
  rw [show (composeScene "traffic_intersection" "road_surface" (trafficParts env r)
        (fun m => createRoadWithMarkings m (blk r 10)) n) =
      generateTrafficIntersection env n r from rfl, traffic_len]
  omega

lemma urban_bounds_ok (env n r) :
    boundsOk ((generateUrbanStreet env n r).sceneBounds)
      ((generateUrbanStreet env n r).points) := by
  rw [generateUrbanStreet, composeScene_bounds]
  apply calculateBounds_ok
  apply List.ne_nil_of_length_pos
  rw [show (composeScene "urban_street" "road_surface" (urbanParts env r)
        (fun m => createUrbanRoadSurface m (blk r 20)) n) =
      generateUrbanStreet env n r from rfl, urban_len]
  omega

lemma parking_bounds_ok (env n r) :
    boundsOk ((generateParkingLot env n r).sceneBounds)
      ((generateParkingLot env n r).points) := by
  rw [generateParkingLot, composeScene_bounds]
  apply calculateBounds_ok
  apply List.ne_nil_of_length_pos
  rw [show (composeScene "parking_lot" "parking_surface"
        (parkingPlaced env r ++ parkingPoles env r)
        (fun m => createParkingSurface m (blk r 40)) n) =
      generateParkingLot env n r from rfl, parking_len]
  have := parkingFootprint_ge env r
  omega

/-! ### Backend table lemmas -/
lemma len_app_tl (c n r) : (appTrafficLight c n r).length = 3 * (n / 3) := by
  simp [appTrafficLight]; ring

lemma len_app_car (env c yaw n r) : (appCar env c yaw n r).length = n := by
  simp [appCar]

lemma len_app_road (m r) : (appRoadSurface m r).length = m.toNat := by
  simp [appRoadSurface]

set_option maxRecDepth 8000 in
lemma app_obj_len (env r) : (appTrafficObjPts env r).length = 2394 := by
  simp [appTrafficObjPts, appTrafficLight, appCar]

set_option maxRecDepth 8000 in
lemma app_lbl_len (env r) : (appTrafficObjLabels env r).length = 2394 := by
  simp [appTrafficObjLabels, appTrafficLight, appCar]

/-- For a positive budget the backend traffic scene builds a table whose six
columns all have exactly `n` rows (the slice `[:num_points]` plus the elastic
road fill guarantee `n` rows are available). -/
lemma app_scene_cols (env n r t) (h : 1 ≤ n) :
    tableColLens (appCreateTrafficScene env n r t) = some (n, n, n, n, n, n) := by
  unfold appCreateTrafficScene
  dsimp only
  have hp : ((appTrafficObjPts env r ++
      appRoadSurface ((n:ℤ) - (appTrafficObjPts env r).length) (blk r 9)).take n).length = n := by
    rw [List.length_take, List.length_append, app_obj_len, len_app_road]
    omega
  have hl : ((appTrafficObjLabels env r ++
      List.replicate (appRoadSurface ((n:ℤ) - (appTrafficObjPts env r).length) (blk r 9)).length
        "road").take n).length = n := by
    rw [List.length_take, List.length_append, app_lbl_len, List.length_replicate, len_app_road,
      app_obj_len]
    omega
  have hne : (appTrafficObjPts env r ++
      appRoadSurface ((n:ℤ) - (appTrafficObjPts env r).length) (blk r 9)).take n ≠ [] := by
    intro hnil
    rw [hnil] at hp
    simp at hp
    omega
  have hlen : ¬ (((appTrafficObjLabels env r ++
      List.replicate (appRoadSurface ((n:ℤ) - (appTrafficObjPts env r).length) (blk r 9)).length
        "road").take n).length ≠ ((appTrafficObjPts env r ++
      appRoadSurface ((n:ℤ) - (appTrafficObjPts env r).length) (blk r 9)).take n).length) :=
    fun h2 => h2 (hl.trans hp.symm)
  rw [toPyarrowTable, if_neg hne, if_neg hlen]
  simp only [tableColLens, Option.map_some', List.length_map, List.length_replicate]
  rw [hp, hl]

/-- At budget 0 the slice leaves an empty point list and the table builder
raises (`np.array([])` is one-dimensional). -/
lemma app_scene_zero (env r t) : appCreateTrafficScene env 0 r t = none := by
  unfold appCreateTrafficScene
  dsimp only
  rw [List.take_zero, List.take_zero, toPyarrowTable]
  simp

/-! ### Traffic-scene layout lemmas -/
set_option maxRecDepth 8000 in
lemma traffic_objs_types (env n r) :
    (generateTrafficIntersection env n r).sceneObjects.map SceneObj.otype =
      ["traffic_light", "traffic_light", "traffic_light", "traffic_light",
       "vehicle", "vehicle", "vehicle", "vehicle", "vehicle", "vehicle"] := by
  simp [generateTrafficIntersection, composeScene, trafficParts]

set_option maxRecDepth 8000 in
lemma traffic_objs_ids (env n r) :
    (generateTrafficIntersection env n r).sceneObjects.map SceneObj.id =
      ["traffic_light_north", "traffic_light_south", "traffic_light_east",
       "traffic_light_west", "car_north_1", "car_north_2", "car_south_1",
       "car_south_2", "car_east_1", "car_west_1"] := by
  simp [generateTrafficIntersection, composeScene, trafficParts]

set_option maxRecDepth 8000 in
lemma traffic_labels_count (env r) :
    (generateTrafficIntersection env 12000 r).labels.count "road_surface" =
      (createRoadWithMarkings ((12000:ℤ) - 2470) (blk r 10)).length := by
  show (((trafficParts env r).map fun pr => List.replicate pr.1.length pr.2.id).join ++
      List.replicate (createRoadWithMarkings ((12000:ℤ) -
        (((trafficParts env r).map Prod.fst).join).length) (blk r 10)).length
        "road_surface").count "road_surface" = _
  rw [traffic_obj_len]
  simp [trafficParts, List.count_append, List.count_replicate]

lemma traffic_road_9530 (r) : (createRoadWithMarkings ((12000:ℤ) - 2470) (blk r 10)).length = 9530 := by
  rw [len_road]
  decide

/-! ### Bounding-box determinism lemmas -/
lemma bbox_tl_indep (env c rot r1 r2) :
    (createTrafficLightDetailed env c rot r1).2 = (createTrafficLightDetailed env c rot r2).2 := rfl

lemma bbox_veh_indep (env c rot vt r1 r2) :
    (createVehicleDetailed env c rot vt r1).2 = (createVehicleDetailed env c rot vt r2).2 := rfl

lemma bbox_bld_indep (c sz r1 r2) :
    (createBuilding c sz r1).2 = (createBuilding c sz r2).2 := rfl

lemma bbox_lamp_indep (c r1 r2) :
    (createLampPost c r1).2 = (createLampPost c r2).2 := rfl

lemma bbox_bench_indep (c r1 r2) :
    (createBench c r1).2 = (createBench c r2).2 := rfl

lemma bbox_lp_indep (env c r1 r2) :
    (createLightPole env c r1).2 = (createLightPole env c r2).2 := rfl

lemma veh_pts_differ :
    (createVehicleDetailed env0 (0, 0, 0) 0 "sedan" rng1).1 ≠
      (createVehicleDetailed env0 (0, 0, 0) 0 "sedan" rng0).1 := by
  intro h
  have h0 := congrArg (fun l => l[0]?) h
  simp only [createVehicleDetailed, List.getElem?_map] at h0
  rw [show vehicleDensity "sedan" = 250 from rfl] at h0
  simp [List.getElem?_range, vehiclePt, unif, nrm, rng0, rng1, env0, vehicleDims, Pt.mk.injEq] at h0

/-! ### Remaining helper lemmas -/
lemma surface_neg (m : ℤ) (r : RNG) (h : m < 0) :
    createRoadWithMarkings m r = [] ∧ createUrbanRoadSurface m r = [] ∧
    createParkingSurface m r = [] := by
  have hz : m.toNat = 0 := Int.toNat_of_nonpos (le_of_lt h)
  refine ⟨?_, ?_, ?_⟩ <;>
    simp [createRoadWithMarkings, createUrbanRoadSurface, createParkingSurface, hz]

lemma app_scene_rows (env n r t) (h : 1 ≤ n) :
    tableRows (appCreateTrafficScene env n r t) = some n := by
  have hc := app_scene_cols env n r t h
  cases hoc : appCreateTrafficScene env n r t with
  | none => rw [hoc] at hc; cases hc
  | some tb =>
    rw [hoc] at hc
    simp only [tableColLens, Option.map_some', Option.some.injEq, Prod.mk.injEq] at hc
    simp [tableRows, hc.1]

lemma valid_rng0 : ValidRNG rng0 := fun _ => by norm_num [rng0]

/-! ### Claim theorems -/

/-- C1: the spec requires an unrecognized preset name to fall back to a
generic random-scene sampler and never raise.  In the code both dispatchers
route unknown presets to fallback methods (`_generate_random_scene` in
`generate_sample_data.py`, `_create_random_scene` in `app.py`) that are
defined nowhere in the repository, so the call raises `AttributeError` —
the code contradicts the documented never-fail policy.  This theorem
evaluates both entry points on every unrecognized preset name. -/
theorem C1_unknown_preset_raises (env : Env) (preset : String) (n : ℕ) (r : RNG) (t : ℚ)
    (h1 : preset ≠ "traffic_scene") (h2 : preset ≠ "urban_street")
    (h3 : preset ≠ "parking_lot") :
    generatePresetData env preset n r =
      .error "AttributeError: _generate_random_scene is not defined" ∧
    appGenerateSampleData env preset n r t =
      .error "AttributeError: _create_random_scene is not defined" := by
  constructor
  · simp [generatePresetData, h1, h2, h3]
  · simp [appGenerateSampleData, h1, h2, h3]

/-- C1 witness: the concrete unknown preset "random_field" raises in both
entry points. -/
theorem C1_unknown_preset_raises_witness :
    generatePresetData env0 "random_field" 1000 rng0 =
      .error "AttributeError: _generate_random_scene is not defined" ∧
    appGenerateSampleData env0 "random_field" 1000 rng0 0 =
      .error "AttributeError: _create_random_scene is not defined" :=
  C1_unknown_preset_raises env0 "random_field" 1000 rng0 0
    (by decide) (by decide) (by decide)

/-- C2: for every preset, when the fixed-layout footprint (2470 for
traffic_scene, 3740 for urban_street, the stochastic grid total for
parking_lot) does not exceed the requested budget `n`, the composed scene has
exactly `n` points; when the footprint exceeds `n`, the surface filler
receives a negative remainder, emits zero points without raising, and the
scene keeps exactly the footprint points. -/
theorem C2_budget_filled_exactly (env : Env) (n : ℕ) (r : RNG) :
    ((2470 ≤ n → (generateTrafficIntersection env n r).points.length = n) ∧
     (n < 2470 → (generateTrafficIntersection env n r).points.length = 2470)) ∧
    ((3740 ≤ n → (generateUrbanStreet env n r).points.length = n) ∧
     (n < 3740 → (generateUrbanStreet env n r).points.length = 3740)) ∧
    ((parkingFootprint env r ≤ n → (generateParkingLot env n r).points.length = n) ∧
     (n < parkingFootprint env r →
       (generateParkingLot env n r).points.length = parkingFootprint env r)) ∧
    (∀ m : ℤ, m < 0 →
      createRoadWithMarkings m r = [] ∧ createUrbanRoadSurface m r = [] ∧
      createParkingSurface m r = []) := by
  have ht := traffic_len env n r
  have hu := urban_len env n r
  have hpk := parking_len env n r
  refine ⟨⟨?_, ?_⟩, ⟨?_, ?_⟩, ⟨?_, ?_⟩, fun m hm => surface_neg m r hm⟩ <;>
    intro hb
  · rw [ht]; omega
  · rw [ht]; omega
  · rw [hu]; omega
  · rw [hu]; omega
  · rw [hpk]; omega
  · rw [hpk]; omega

/-- C2 witness: both branches evaluated at concrete budgets for each preset,
plus a surface filler call with a negative remainder. -/
theorem C2_budget_filled_exactly_witness :
    (generateTrafficIntersection env0 12000 rng0).points.length = 12000 ∧
    (generateTrafficIntersection env0 100 rng0).points.length = 2470 ∧
    (generateUrbanStreet env0 4000 rng0).points.length = 4000 ∧
    (generateUrbanStreet env0 0 rng0).points.length = 3740 ∧
    (generateParkingLot env0 0 rng0).points.length = parkingFootprint env0 rng0 ∧
    createRoadWithMarkings (-5) rng0 = [] := by
  have hpf : 0 < parkingFootprint env0 rng0 :=
    lt_of_lt_of_le (by norm_num) (parkingFootprint_ge env0 rng0)
  exact ⟨(C2_budget_filled_exactly env0 12000 rng0).1.1 (by norm_num),
         (C2_budget_filled_exactly env0 100 rng0).1.2 (by norm_num),
         (C2_budget_filled_exactly env0 4000 rng0).2.1.1 (by norm_num),
         (C2_budget_filled_exactly env0 0 rng0).2.1.2 (by norm_num),
         (C2_budget_filled_exactly env0 0 rng0).2.2.1.2 hpf,
         ((C2_budget_filled_exactly env0 0 rng0).2.2.2 (-5) (by norm_num)).1⟩

/-- C3 counterexample: in `PointCloudProcessor._create_traffic_scene` the
fixed-object footprint is 2394 points, yet at requested budget 100 the
returned table has exactly 100 rows — already-placed object points ARE
truncated by the `points[:num_points]` slice and the caller does not receive
more points than requested, contradicting the claim for this entry point. -/
theorem C3_truncation_counterexample :
    (appTrafficObjPts env0 rng0).length = 2394 ∧
    tableRows (appCreateTrafficScene env0 100 rng0 0) = some 100 :=
  ⟨app_obj_len env0 rng0, app_scene_rows env0 100 rng0 0 (by norm_num)⟩

/-- C3 amended: in the `HighPerformanceSampleGenerator` composers no placed
object point is ever dropped — when the footprint exceeds the budget the
scene keeps the full footprint, strictly more points than requested; the
backend `_create_traffic_scene`, by contrast, slices the accumulated points
down to exactly `num_points`. -/
theorem C3_no_truncation_amended (env : Env) (n : ℕ) (r : RNG) (t : ℚ) :
    (n < 2470 → n < (generateTrafficIntersection env n r).points.length ∧
      (generateTrafficIntersection env n r).points.length = 2470) ∧
    (n < 3740 → n < (generateUrbanStreet env n r).points.length ∧
      (generateUrbanStreet env n r).points.length = 3740) ∧
    (n < parkingFootprint env r → n < (generateParkingLot env n r).points.length ∧
      (generateParkingLot env n r).points.length = parkingFootprint env r) ∧
    (1 ≤ n → tableRows (appCreateTrafficScene env n r t) = some n) := by
  refine ⟨fun h => ?_, fun h => ?_, fun h => ?_, fun h => app_scene_rows env n r t h⟩
  · rw [traffic_len]; omega
  · rw [urban_len]; omega
  · rw [parking_len]; omega

/-- C3 amended witness: concrete under-budget calls for each generator
composer and the backend slice at budget 100. -/
theorem C3_no_truncation_amended_witness :
    (100 < (generateTrafficIntersection env0 100 rng0).points.length ∧
      (generateTrafficIntersection env0 100 rng0).points.length = 2470) ∧
    (0 < (generateParkingLot env0 0 rng0).points.length ∧
      (generateParkingLot env0 0 rng0).points.length = parkingFootprint env0 rng0) ∧
    tableRows (appCreateTrafficScene env0 100 rng0 0) = some 100 := by
  have hpf : 0 < parkingFootprint env0 rng0 :=
    lt_of_lt_of_le (by norm_num) (parkingFootprint_ge env0 rng0)
  exact ⟨(C3_no_truncation_amended env0 100 rng0 0).1 (by norm_num),
         (C3_no_truncation_amended env0 0 rng0 0).2.2.1 hpf,
         (C3_no_truncation_amended env0 100 rng0 0).2.2.2 (by norm_num)⟩

/-- C4 counterexample: the backend traffic-light sampler called with the
budget 200 used by `_create_traffic_scene` emits only 198 points
(three loops of `200 // 3 = 66` iterations), not exactly 200 — a
count-taking primitive sampler that does not emit exactly the requested
count. -/
theorem C4_exact_count_counterexample :
    (appTrafficLight (5, -2, 7/2) 200 rng0).length = 198 ∧ (198 : ℕ) ≠ 200 := by
  refine ⟨?_, by decide⟩
  rw [len_app_tl]

/-- C4 amended: every count-taking sampler emits its count exactly — and a
count of 0 yields the empty set without error — except the backend
traffic-light sampler, which emits `3 * (n / 3) ≤ n` points (exactly `n`
only when 3 divides `n`); the detailed traffic light takes no count and
always emits its fixed 180 points. -/
theorem C4_sampler_counts_amended (env : Env) (c : ℚ × ℚ × ℚ) (yaw rot : ℚ) (n : ℕ) (r : RNG) :
    (appTrafficLight c n r).length = 3 * (n / 3) ∧
    3 * (n / 3) ≤ n ∧
    (appCar env c yaw n r).length = n ∧
    (appRoadSurface (n : ℤ) r).length = n ∧
    (createRoadWithMarkings (n : ℤ) r).length = n ∧
    (createUrbanRoadSurface (n : ℤ) r).length = n ∧
    (createParkingSurface (n : ℤ) r).length = n ∧
    (createTrafficLightDetailed env c rot r).1.length = 180 ∧
    appTrafficLight c 0 r = [] ∧ appCar env c yaw 0 r = [] ∧ appRoadSurface 0 r = [] := by
  refine ⟨len_app_tl c n r, by omega, len_app_car env c yaw n r, ?_, ?_, ?_, ?_,
    len_tl env c rot r, ?_, ?_, ?_⟩
  · rw [len_app_road]; exact Int.toNat_natCast n
  · rw [len_road]; exact Int.toNat_natCast n
  · rw [len_urbroad]; exact Int.toNat_natCast n
  · rw [len_prkroad]; exact Int.toNat_natCast n
  · simp [appTrafficLight]
  · simp [appCar]
  · simp [appRoadSurface]

/-- C5: every point emitted by any sampler of any preset — poles, housings,
arms, vehicles, buildings, street furniture, light fixtures and all surface
fillers, in both the generator and the backend — has its intensity in the
closed interval `[0, 1]`, for any valid draw stream. -/
theorem C5_intensity_in_unit_interval (env : Env) (c sz : ℚ × ℚ × ℚ) (rot yaw : ℚ)
    (vt : String) (n : ℕ) (m : ℤ) (r : RNG) (h : ValidRNG r) :
    IntensOK (createTrafficLightDetailed env c rot r).1 ∧
    IntensOK (createVehicleDetailed env c rot vt r).1 ∧
    IntensOK (createBuilding c sz r).1 ∧
    IntensOK (createLampPost c r).1 ∧
    IntensOK (createBench c r).1 ∧
    IntensOK (createLightPole env c r).1 ∧
    IntensOK (createRoadWithMarkings m r) ∧
    IntensOK (createUrbanRoadSurface m r) ∧
    IntensOK (createParkingSurface m r) ∧
    IntensOK (appTrafficLight c n r) ∧
    IntensOK (appCar env c yaw n r) ∧
    IntensOK (appRoadSurface m r) :=
  ⟨intens_tl env c rot r h, intens_veh env c rot vt r h, intens_bld c sz r h,
   intens_lamp c r h, intens_bench c r h, intens_lp env c r h, intens_road m r h,
   intens_urbroad m r h, intens_prkroad m r h, intens_app_tl c n r h,
   intens_app_car env c yaw n r h, intens_app_road m r h⟩

/-- C5 witness: the all-zero stream is valid and the concrete sedan sampler
output at that stream satisfies the intensity range. -/
theorem C5_intensity_in_unit_interval_witness :
    ValidRNG rng0 ∧ IntensOK (createVehicleDetailed env0 (0, 0, 0) 0 "sedan" rng0).1 :=
  ⟨valid_rng0,
   (C5_intensity_in_unit_interval env0 (0, 0, 0) (0, 0, 0) 0 0 "sedan" 0 0 rng0 valid_rng0).2.1⟩

/-- C6: every composed scene (all three presets, any budget, any stream) has
scene bounds that exist, satisfy `min ≤ max` on every axis, and contain every
accumulated point inclusively. -/
theorem C6_scene_bounds_contain_points (env : Env) (n : ℕ) (r : RNG) :
    boundsOk (generateTrafficIntersection env n r).sceneBounds
      (generateTrafficIntersection env n r).points ∧
    boundsOk (generateUrbanStreet env n r).sceneBounds
      (generateUrbanStreet env n r).points ∧
    boundsOk (generateParkingLot env n r).sceneBounds
      (generateParkingLot env n r).points :=
  ⟨traffic_bounds_ok env n r, urban_bounds_ok env n r, parking_bounds_ok env n r⟩

/-- C7: the traffic_scene preset at budget 12000 yields exactly 4
traffic-light objects and 6 vehicle objects with pairwise distinct ids, and
the road-surface group fills the remaining 12000 − 2470 = 9530 points. -/
theorem C7_traffic_scene_12000 (env : Env) (r : RNG) :
    ((generateTrafficIntersection env 12000 r).sceneObjects.map
        SceneObj.otype).count "traffic_light" = 4 ∧
    ((generateTrafficIntersection env 12000 r).sceneObjects.map
        SceneObj.otype).count "vehicle" = 6 ∧
    ((generateTrafficIntersection env 12000 r).sceneObjects.map SceneObj.id).Nodup ∧
    (generateTrafficIntersection env 12000 r).labels.count "road_surface" = 9530 ∧
    (generateTrafficIntersection env 12000 r).points.length = 12000 := by
  refine ⟨?_, ?_, ?_, ?_, ?_⟩
  · rw [traffic_objs_types]; decide
  · rw [traffic_objs_types]; decide
  · rw [traffic_objs_ids]; decide
  · rw [traffic_labels_count, traffic_road_9530]
  · rw [traffic_len]; decide

/-- C8: saving any composed scene with `_save_as_json` and reparsing the
document reproduces the `scene_objects` list, `metadata.total_points` and
`metadata.num_objects` identically, for all three presets. -/
theorem C8_json_roundtrip (env : Env) (n : ℕ) (r : RNG) :
    parseSceneDoc (saveAsJson (generateTrafficIntersection env n r)) =
      some ((generateTrafficIntersection env n r).sceneObjects,
            (generateTrafficIntersection env n r).totalPoints,
            (generateTrafficIntersection env n r).numObjects) ∧
    parseSceneDoc (saveAsJson (generateUrbanStreet env n r)) =
      some ((generateUrbanStreet env n r).sceneObjects,
            (generateUrbanStreet env n r).totalPoints,
            (generateUrbanStreet env n r).numObjects) ∧
    parseSceneDoc (saveAsJson (generateParkingLot env n r)) =
      some ((generateParkingLot env n r).sceneObjects,
            (generateParkingLot env n r).totalPoints,
            (generateParkingLot env n r).numObjects) :=
  ⟨parse_save _ (wf_traffic env n r), parse_save _ (wf_urban env n r),
   parse_save _ (wf_parking env n r)⟩

/-- C9: for every object sampler, the returned bounding box is computed from
the fixed geometry only — it is identical across any two draw streams — while
the sampled point cloud itself can differ between streams. -/
theorem C9_bbox_from_geometry (env : Env) (c sz : ℚ × ℚ × ℚ) (rot : ℚ) (vt : String)
    (r1 r2 : RNG) :
    (createTrafficLightDetailed env c rot r1).2 = (createTrafficLightDetailed env c rot r2).2 ∧
    (createVehicleDetailed env c rot vt r1).2 = (createVehicleDetailed env c rot vt r2).2 ∧
    (createBuilding c sz r1).2 = (createBuilding c sz r2).2 ∧
    (createLampPost c r1).2 = (createLampPost c r2).2 ∧
    (createBench c r1).2 = (createBench c r2).2 ∧
    (createLightPole env c r1).2 = (createLightPole env c r2).2 ∧
    ∃ s1 s2 : RNG, (createVehicleDetailed env0 (0, 0, 0) 0 "sedan" s1).1 ≠
      (createVehicleDetailed env0 (0, 0, 0) 0 "sedan" s2).1 :=
  ⟨rfl, rfl, rfl, rfl, rfl, rfl, rng1, rng0, veh_pts_differ⟩

/-- C10 counterexample: at `num_points = 0` the backend traffic scene does not
return a 0-row table — the empty slice reaches `np.array([])[:, 0]` in
`_to_pyarrow_table`, which raises `IndexError`. -/
theorem C10_zero_budget_counterexample :
    appCreateTrafficScene env0 0 rng0 0 = none ∧
    appGenerateSampleData env0 "traffic_scene" 0 rng0 0 =
      .error "IndexError: too many indices for array" := by
  refine ⟨app_scene_zero env0 rng0 0, ?_⟩
  simp [appGenerateSampleData, app_scene_zero]

/-- C10 amended: for every budget `n ≥ 1` the backend traffic scene returns a
table whose six columns `x, y, z, intensity, label, timestamp` all have
exactly `n` rows (road fill makes up the difference above the 2394-point
footprint; below it, the `[:num_points]` slice truncates); at `n = 0` the
table builder raises instead. -/
theorem C10_table_rows_amended (env : Env) (n : ℕ) (r : RNG) (t : ℚ) (h : 1 ≤ n) :
    tableColLens (appCreateTrafficScene env n r t) = some (n, n, n, n, n, n) :=
  app_scene_cols env n r t h

/-- C10 amended witness: the six column lengths at the concrete budget 3. -/
theorem C10_table_rows_amended_witness :
    tableColLens (appCreateTrafficScene env0 3 rng0 0) = some (3, 3, 3, 3, 3, 3) :=
  C10_table_rows_amended env0 3 rng0 0 (by norm_num)
